import Mathlib

/-!
Shallow embedding of the core grammar-correction pipeline of the
`illiterate` repository (backend/app/services: pipeline.py, validator.py,
languagetool.py, llm.py; backend/app/models: request.py, response.py).

Conventions of the embedding:
* Python strings are Lean `String`s; Python slicing and `str.find` operate
  on character (code point) indices, modelled with `List Char` operations.
* Python `str.lower` / `str.upper` are modelled character-wise
  (`pyLower` / `pyUpper`).
* Python exceptions are modelled with `Except PyError`; an `except` clause
  for a specific exception class is a pattern match on the corresponding
  `PyError` constructor, every other constructor propagates.
* The two network backends (LanguageTool HTTP service, chat-completion
  endpoint) are oracles passed in as functions: `RuleOracle` abstracts
  `LanguageToolService.check_text` (which may raise: tagged
  `LanguageToolError` from the HTTP layer, or an untagged pydantic
  `ValidationError` from `_parse_matches`, which sits outside the
  `try` block), and `LLMOracle` abstracts `LLMService.generate_correction`
  / `generate_rewrites_only`, which catch all their own exceptions and
  return `None` on failure, hence `Option` with no error channel.
* JSON numbers (the `score` field of a model rewrite) are modelled as `ℚ`;
  the `float()` coercion outcome is abstracted by the `ScoreVal` type.
* `sorted(key=..., reverse=True)` is Python's stable sort by the reversed
  comparison; it is modelled by Mathlib's stable `List.insertionSort`
  with the relation "offset is ≥".
-/

namespace Illiterate

/-- Python `str.lower`, character-wise (models `str.lower()` as used in
`validator._is_similar_issue`). -/
def pyLower (s : String) : String := String.mk (s.toList.map Char.toLower)

/-- Python `str.upper`, character-wise. -/
def pyUpper (s : String) : String := String.mk (s.toList.map Char.toUpper)

/-- Python slice `s[a:b]` for `0 ≤ a ≤ b`, clamping out-of-range indices. -/
def pySlice (s : String) (a b : Nat) : String :=
  String.mk ((s.toList.drop a).take (b - a))

/-- `models/response.py`: `IssueSeverity`. -/
inductive IssueSeverity
  | error
  | warning
  | style
  | hint
deriving DecidableEq

/-- `models/response.py`: `IssueCategory`. -/
inductive IssueCategory
  | grammar
  | spelling
  | punctuation
  | style
  | typography
  | word_order
  | agreement
  | other
deriving DecidableEq

/-- The `.value` of an `IssueCategory` enum member (its lowercase string). -/
def IssueCategory.value : IssueCategory → String
  | .grammar => "grammar"
  | .spelling => "spelling"
  | .punctuation => "punctuation"
  | .style => "style"
  | .typography => "typography"
  | .word_order => "word_order"
  | .agreement => "agreement"
  | .other => "other"

/-- `models/response.py`: `GrammarIssue` (pydantic model; the `ge=0` /
`ge=1` constraints on `offset` / `length` are enforced at construction
time by `parse_match` below, not by this type). -/
structure GrammarIssue where
  offset : Nat
  length : Nat
  message : String
  rule_id : String
  category : IssueCategory
  severity : IssueSeverity
  original_text : String
  suggestions : List String
  context : Option String
deriving DecidableEq

/-- `models/response.py`: `RewriteSuggestion`. `score` is a JSON number,
modelled as `ℚ`. -/
structure RewriteSuggestion where
  text : String
  tone : String
  score : ℚ
  changes_summary : Option String
deriving DecidableEq

/-- `models/response.py`: `Explanation`. -/
structure Explanation where
  span : String
  original : String
  corrected : String
  reason : String
deriving DecidableEq

/-- `models/request.py`: `CheckMode`. -/
inductive CheckMode
  | strict
  | style
deriving DecidableEq

/-- `models/request.py`: `Tone`. -/
inductive Tone
  | neutral
  | formal
  | casual
  | academic
deriving DecidableEq

/-- `models/request.py`: `CheckRequest` (after pydantic field validation). -/
structure CheckRequest where
  text : String
  language : String
  mode : CheckMode
  tone : Tone
  include_explanations : Bool
deriving DecidableEq

/-- `models/response.py`: `CheckResponse`; `model_post_init` sets
`issue_count := issues.length`, which every constructor site below does. -/
structure CheckResponse where
  original_text : String
  corrected_text : String
  issues : List GrammarIssue
  rewrites : List RewriteSuggestion
  explanations : List Explanation
  validation_passed : Bool
  fallback_used : Bool
  language : String
  issue_count : Nat
deriving DecidableEq

/-- Python exceptions relevant to the pipeline: the two tagged error
classes (`LanguageToolError`, `LLMError`) and everything else
(e.g. a pydantic `ValidationError`). -/
inductive PyError
  | languageToolError (msg : String)
  | llmError (msg : String)
  | otherError (msg : String)
deriving DecidableEq

/-- `validator.py`: `ValidationResult`. -/
structure ValidationResult where
  is_valid : Bool
  new_issues : List GrammarIssue
  message : String
deriving DecidableEq

/-- `llm.py`: `LLMResponse`. -/
structure LLMResponse where
  corrected_text : String
  rewrites : List RewriteSuggestion
  explanations : List Explanation
deriving DecidableEq

/-- Oracle for `LanguageToolService.check_text text language`: returns the
issue list, or raises (tagged `LanguageToolError` from the HTTP layer;
possibly an untagged exception from the parsing step, see `check_text`
below). -/
structure RuleOracle where
  check : String → String → Except PyError (List GrammarIssue)

/-- Oracle for the two LLM entry points used by the pipeline.  In
`llm.py` both `generate_correction` and `generate_rewrites_only` wrap
their bodies in `try/except Exception: return None`, so they return
`None` on any failure and never raise. -/
structure LLMOracle where
  generate_correction :
    String → List GrammarIssue → String → Tone → Bool → Option LLMResponse
  generate_rewrites_only : String → String → Tone → Option LLMResponse

/-! ## Rule backend client (`languagetool.py`) -/

/-- One entry of the provider's `matches[]` document, with the fields
`_parse_matches` reads.  `offset` and `length` are raw JSON integers. -/
structure LTMatch where
  offset : Int
  length : Int
  message : String
  replacements : List String
  rule_id : String
  category_id : String
  type_name : String
  context_text : String
deriving DecidableEq

/-- `languagetool.py`: `_map_category` (keys are matched after `.upper()`). -/
def map_category (lt_category : String) : IssueCategory :=
  let c := pyUpper lt_category
  if c = "GRAMMAR" then .grammar
  else if c = "TYPOS" then .spelling
  else if c = "SPELLING" then .spelling
  else if c = "PUNCTUATION" then .punctuation
  else if c = "STYLE" then .style
  else if c = "TYPOGRAPHY" then .typography
  else if c = "CASING" then .typography
  else if c = "CONFUSED_WORDS" then .grammar
  else if c = "REDUNDANCY" then .style
  else if c = "MISC" then .other
  else .other

/-- `languagetool.py`: `_map_severity` (keys are matched after `.lower()`). -/
def map_severity (lt_type : String) : IssueSeverity :=
  let t := pyLower lt_type
  if t = "misspelling" then .error
  else if t = "grammar" then .error
  else if t = "style" then .style
  else if t = "typographical" then .warning
  else if t = "hint" then .hint
  else .warning

/-- Constructing a `GrammarIssue` from one match, as `_parse_matches` does;
pydantic raises a `ValidationError` (an untagged exception) when
`offset < 0` or `length < 1`. -/
def parse_match (original_text : String) (m : LTMatch) :
    Except PyError GrammarIssue :=
  if m.offset < 0 ∨ m.length < 1 then
    .error (.otherError "GrammarIssue validation error")
  else
    .ok
      { offset := m.offset.toNat
        length := m.length.toNat
        message := m.message
        rule_id := m.rule_id
        category := map_category m.category_id
        severity := map_severity m.type_name
        original_text :=
          if m.length > 0 then
            pySlice original_text m.offset.toNat (m.offset.toNat + m.length.toNat)
          else ""
        suggestions := m.replacements.take 5
        context := if m.context_text = "" then none else some m.context_text }

/-- `languagetool.py`: `_parse_matches` (the first pydantic failure
aborts the whole call, as an uncaught exception would). -/
def parse_matches (original_text : String) :
    List LTMatch → Except PyError (List GrammarIssue)
  | [] => .ok []
  | m :: rest => do
    let i ← parse_match original_text m
    let is ← parse_matches original_text rest
    .ok (i :: is)

/-- `languagetool.py`: `check_text`.  The HTTP stage is abstracted by
`httpOutcome`; every exception it raises is wrapped into
`LanguageToolError` by the `try/except` block.  The call to
`_parse_matches` is outside that block, so its pydantic
`ValidationError` propagates untagged. -/
def check_text (httpOutcome : Except String (List LTMatch)) (text : String) :
    Except PyError (List GrammarIssue) :=
  match httpOutcome with
  | .error msg => .error (.languageToolError msg)
  | .ok ms => parse_matches text ms

/-- A `RuleOracle` realized by `check_text` over an HTTP-layer oracle. -/
def ruleFromHttp (data : String → String → Except String (List LTMatch)) :
    RuleOracle :=
  ⟨fun t l => check_text (data t l) t⟩

/-! ## Rule-based fallback (`pipeline.py: _apply_rule_based_fixes`) -/

/-- The loop body of `_apply_rule_based_fixes`: if the issue has
suggestions, replace `result[offset : offset+length]` with the first
suggestion, else leave `result` unchanged. -/
def apply_one_fix (result : String) (issue : GrammarIssue) : String :=
  match issue.suggestions with
  | [] => result
  | suggestion :: _ =>
      String.mk (result.toList.take issue.offset ++ suggestion.toList ++
        result.toList.drop (issue.offset + issue.length))

/-- The sort relation of `sorted(issues, key=lambda x: x.offset,
reverse=True)`: descending offset. -/
def offsetGE (a b : GrammarIssue) : Prop := b.offset ≤ a.offset

instance : DecidableRel offsetGE := fun a b => Nat.decLe b.offset a.offset

/-- `pipeline.py`: `_apply_rule_based_fixes`.  Python's `sorted` is
stable; with key `offset` and `reverse=True` it is the stable sort by
descending offset, modelled by the stable `List.insertionSort`. -/
def apply_rule_based_fixes (text : String) (issues : List GrammarIssue) :
    String :=
  (issues.insertionSort offsetGE).foldl apply_one_fix text

/-! ## Validator (`validator.py`) -/

/-- `ValidationService.max_new_issues` (set in `__init__`). -/
def max_new_issues : Nat := 0

/-- `ValidationService.ignore_categories` (set in `__init__`). -/
def ignore_categories : List String := ["STYLE", "TYPOGRAPHY"]

/-- One iteration of the loop in `_is_similar_issue`: the per-pair
similarity test `(same rule_id ∧ lowercased spans equal) ∨ spans equal`. -/
def pair_similar (issue orig : GrammarIssue) : Bool :=
  (issue.rule_id == orig.rule_id &&
    pyLower issue.original_text == pyLower orig.original_text) ||
  issue.original_text == orig.original_text

/-- `validator.py`: `_is_similar_issue` (a loop returning `True` on the
first similar original issue). -/
def is_similar_issue (issue : GrammarIssue)
    (original_issues : List GrammarIssue) : Bool :=
  original_issues.any (pair_similar issue)

/-- The `truly_new_issues` list computed inside `validate_correction`:
keep a new issue unless it is similar to an original one, or (in
non-strict mode) its category's uppercased value is in
`ignore_categories`. -/
def truly_new_issues (new_issues original_issues : List GrammarIssue)
    (strict : Bool) : List GrammarIssue :=
  new_issues.filter fun issue =>
    !(is_similar_issue issue original_issues) &&
    !(!strict && ignore_categories.contains (pyUpper issue.category.value))

/-- `validator.py`: `validate_correction`.  The re-check's
`LanguageToolError` is caught and turned into an invalid verdict; any
other exception from the re-check propagates. -/
def validate_correction (rule : RuleOracle) (corrected_text : String)
    (original_issues : List GrammarIssue) (language : String)
    (strict : Bool) : Except PyError ValidationResult :=
  match rule.check corrected_text language with
  | .error (.languageToolError msg) =>
      .ok
        { is_valid := false
          new_issues := []
          message := "Validation failed: " ++ msg }
  | .error e => .error e
  | .ok new_issues =>
      let truly_new := truly_new_issues new_issues original_issues strict
      if truly_new.length > max_new_issues then
        .ok
          { is_valid := false
            new_issues := truly_new
            message :=
              "LLM introduced " ++ toString truly_new.length ++ " new issues" }
      else if new_issues.length > original_issues.length then
        .ok
          { is_valid := false
            new_issues := new_issues
            message := "Correction did not reduce error count" }
      else
        .ok
          { is_valid := true
            new_issues := truly_new
            message := "Validation passed" }

/-- `validator.py`: `validate_and_choose` (calls `validate_correction`
with the default `strict=True`; exceptions propagate). -/
def validate_and_choose (rule : RuleOracle) (llm_text fallback_text : String)
    (original_issues : List GrammarIssue) (language : String) :
    Except PyError (String × Bool × ValidationResult) :=
  match validate_correction rule llm_text original_issues language true with
  | .error e => .error e
  | .ok validation =>
      if validation.is_valid then .ok (llm_text, false, validation)
      else .ok (fallback_text, true, validation)

/-! ## Pipeline orchestrator (`pipeline.py`) -/

/-- `pipeline.py`: `_generate_basic_explanations`. -/
def generate_basic_explanations : List GrammarIssue → List Explanation
  | [] => []
  | issue :: rest =>
      match issue.suggestions with
      | [] => generate_basic_explanations rest
      | s :: _ =>
          { span := issue.original_text
            original := issue.original_text
            corrected := s
            reason := issue.message } :: generate_basic_explanations rest

/-- First character index at which `needle` occurs in the haystack, if
any (models Python `str.find`, whose `-1` is represented by `none`). -/
def findSub (needle : List Char) : List Char → Option Nat
  | [] => if needle.isPrefixOf ([] : List Char) then some 0 else none
  | c :: t =>
      if needle.isPrefixOf (c :: t) then some 0
      else (findSub needle t).map (· + 1)

/-- `text.find(pat)` followed by the `if offset == -1: offset = 0`
coercion in `_explanations_to_issues`. -/
def pyFindOffset (text pat : String) : Nat :=
  match findSub pat.toList text.toList with
  | some n => n
  | none => 0

/-- The `GrammarIssue` built by the loop body of
`_explanations_to_issues` for one explanation. -/
def issueOfExplanation (text : String) (e : Explanation) : GrammarIssue :=
  let offset := pyFindOffset text e.original
  { offset := offset
    length := e.original.length
    message := if e.reason = "" then "LLM detected issue" else e.reason
    rule_id := "LLM_DETECTED"
    category := .grammar
    severity := .warning
    original_text := e.original
    suggestions := [e.corrected]
    context := some (pySlice text (offset - 20) (offset + e.original.length + 20)) }

/-- `pipeline.py`: `_explanations_to_issues` (the `if exp.original and
exp.corrected and exp.original != exp.corrected` guard uses string
truthiness, i.e. non-emptiness). -/
def explanations_to_issues (text : String) :
    List Explanation → List GrammarIssue
  | [] => []
  | e :: rest =>
      if e.original ≠ "" ∧ e.corrected ≠ "" ∧ e.original ≠ e.corrected then
        issueOfExplanation text e :: explanations_to_issues text rest
      else explanations_to_issues text rest

/-- The degraded response of the `except LanguageToolError` branch at the
initial check (pipeline.py lines 72–81). -/
def ltErrorResponse (text language : String) : CheckResponse :=
  { original_text := text
    corrected_text := text
    issues := []
    rewrites := []
    explanations := []
    validation_passed := false
    fallback_used := true
    language := language
    issue_count := 0 }

/-- The degraded response at the end of the no-issues branch
(pipeline.py lines 126–135). -/
def noIssuesDegraded (text language : String) : CheckResponse :=
  { original_text := text
    corrected_text := text
    issues := []
    rewrites := []
    explanations := []
    validation_passed := true
    fallback_used := false
    language := language
    issue_count := 0 }

/-- The response returned inside `if llm_response:` of the no-issues
branch (pipeline.py lines 113–122). -/
def noIssuesLLMResponse (text language : String) (corrected : String)
    (llm_found_issues : Bool) (lr : LLMResponse)
    (include_rewrites include_explanations : Bool) : CheckResponse :=
  let issues := if llm_found_issues then explanations_to_issues text lr.explanations else []
  { original_text := text
    corrected_text := corrected
    issues := issues
    rewrites := if include_rewrites then lr.rewrites else []
    explanations := if include_explanations then lr.explanations else []
    validation_passed := true
    fallback_used := false
    language := language
    issue_count := issues.length }

/-- The no-issues branch of `process` (pipeline.py lines 84–135): the
whole `try` body — LLM call, optional re-validation, and the return —
is guarded by `except Exception`, after which control falls through to
the degraded return. -/
def noIssuesBranch (rule : RuleOracle) (llm : LLMOracle)
    (text language : String) (tone : Tone)
    (include_rewrites include_explanations : Bool) : CheckResponse :=
  match llm.generate_rewrites_only text language tone with
  | none => noIssuesDegraded text language
  | some lr =>
      if lr.corrected_text != text then
        match validate_correction rule lr.corrected_text [] language true with
        | .error _ => noIssuesDegraded text language
        | .ok validation =>
            let corrected := if validation.is_valid then lr.corrected_text else text
            noIssuesLLMResponse text language corrected true lr
              include_rewrites include_explanations
      else
        noIssuesLLMResponse text language text false lr
          include_rewrites include_explanations

/-- The fallback response of the main branch (LLM absent, `LLMError`, or
validation failure): `final_text = fallback_text`, no rewrites,
synthesized explanations, `validation_passed` as computed. -/
def mainFallbackResponse (text language : String)
    (issues : List GrammarIssue) (fallback_text : String)
    (validation_passed : Bool) (include_explanations : Bool) : CheckResponse :=
  { original_text := text
    corrected_text := fallback_text
    issues := issues
    rewrites := []
    explanations :=
      if include_explanations then generate_basic_explanations issues else []
    validation_passed := validation_passed
    fallback_used := true
    language := language
    issue_count := issues.length }

/-- The main (`Corrected`) branch of `process` (pipeline.py lines
137–198).  `generate_correction` never raises (it returns `None` on any
internal failure), so the only raiser inside the `try` is
`validate_and_choose`; its `LLMError` would be caught by `except
LLMError`, anything else propagates out of `process`. -/
def mainBranch (rule : RuleOracle) (llm : LLMOracle)
    (text language : String) (tone : Tone) (issues : List GrammarIssue)
    (include_rewrites include_explanations : Bool) :
    Except PyError CheckResponse :=
  match llm.generate_correction text issues language tone include_rewrites with
  | none =>
      .ok (mainFallbackResponse text language issues
        (apply_rule_based_fixes text issues) false include_explanations)
  | some lr =>
      match validate_and_choose rule lr.corrected_text
          (apply_rule_based_fixes text issues) issues language with
      | .error (.llmError _) =>
          .ok (mainFallbackResponse text language issues
            (apply_rule_based_fixes text issues) false include_explanations)
      | .error e => .error e
      | .ok (final_text, used_fallback, validation) =>
          if used_fallback then
            .ok (mainFallbackResponse text language issues final_text
              validation.is_valid include_explanations)
          else
            .ok
              { original_text := text
                corrected_text := final_text
                issues := issues
                rewrites := lr.rewrites
                explanations :=
                  if include_explanations then lr.explanations else []
                validation_passed := validation.is_valid
                fallback_used := false
                language := language
                issue_count := issues.length }

/-- `pipeline.py`: `GrammarPipeline.process`. -/
def process (rule : RuleOracle) (llm : LLMOracle) (req : CheckRequest) :
    Except PyError CheckResponse :=
  match rule.check req.text req.language with
  | .error (.languageToolError _) => .ok (ltErrorResponse req.text req.language)
  | .error e => .error e
  | .ok [] =>
      .ok (noIssuesBranch rule llm req.text req.language req.tone
        (req.mode == CheckMode.style) req.include_explanations)
  | .ok issues =>
      mainBranch rule llm req.text req.language req.tone issues
        (req.mode == CheckMode.style) req.include_explanations

/-! ## Model reply decoder, rewrites part (`llm.py: _parse_response`) -/

/-- Outcome of Python `float(rw.get("score", 5))` on the raw `score`
value of one rewrite entry: the key is absent (default `5`), `float()`
succeeds with value `q`, or `float()` raises (non-numeric value). -/
inductive ScoreVal
  | missing
  | num (q : ℚ)
  | bad
deriving DecidableEq

/-- One entry of the model's `rewrites[]` array, with the fields
`_parse_response` reads. -/
structure RawRewrite where
  text : Option String
  tone : Option String
  score : ScoreVal
  changes_summary : Option String
deriving DecidableEq

/-- One iteration of the rewrites loop in `_parse_response`: build a
`RewriteSuggestion` with defaults `text=""`, `tone="neutral"`,
`score=5`; the pydantic constraints `ge=0, le=10` on `score` reject
out-of-range values, and the surrounding `try/except: continue` drops
the entry on any failure. -/
def parse_rewrite (entry : RawRewrite) : Option RewriteSuggestion :=
  match entry.score with
  | .bad => none
  | .missing =>
      some
        { text := entry.text.getD ""
          tone := entry.tone.getD "neutral"
          score := 5
          changes_summary := entry.changes_summary }
  | .num q =>
      if 0 ≤ q ∧ q ≤ 10 then
        some
          { text := entry.text.getD ""
            tone := entry.tone.getD "neutral"
            score := q
            changes_summary := entry.changes_summary }
      else none

/-- The whole rewrites loop of `_parse_response`: kept entries in order,
malformed entries dropped. -/
def parse_rewrites (entries : List RawRewrite) : List RewriteSuggestion :=
  entries.filterMap parse_rewrite

/-! ## Helper lemmas -/

/-- `needle` occurs in `hay` at character index `n`. -/
def occursAt (needle hay : List Char) (n : Nat) : Prop :=
  needle <+: hay.drop n

theorem findSub_eq_some (needle hay : List Char) :
    ∀ n, findSub needle hay = some n →
      occursAt needle hay n ∧ ∀ m, m < n → ¬ occursAt needle hay m := by
  induction hay with
  | nil =>
      intro n hn
      unfold findSub at hn
      split at hn
      · rename_i hpre
        cases hn
        refine ⟨List.isPrefixOf_iff_prefix.mp hpre, ?_⟩
        intro m hm
        omega
      · cases hn
  | cons c t ih =>
      intro n hn
      unfold findSub at hn
      split at hn
      · rename_i hpre
        cases hn
        refine ⟨List.isPrefixOf_iff_prefix.mp hpre, ?_⟩
        intro m hm
        omega
      · rename_i hpre
        rcases Option.map_eq_some'.mp hn with ⟨k, hk, hkn⟩
        rcases ih k hk with ⟨hocc, hmin⟩
        subst hkn
        constructor
        · simpa [occursAt] using hocc
        · intro m hm
          cases m with
          | zero =>
              simp only [occursAt, List.drop_zero]
              intro hc
              exact hpre (List.isPrefixOf_iff_prefix.mpr hc)
          | succ m' =>
              have := hmin m' (by omega)
              simpa [occursAt] using this

theorem findSub_eq_none (needle hay : List Char) :
    findSub needle hay = none → ∀ m, ¬ occursAt needle hay m := by
  induction hay with
  | nil =>
      intro hn m
      unfold findSub at hn
      split at hn
      · cases hn
      · rename_i hpre
        simp only [occursAt, List.drop_nil]
        intro hc
        exact hpre (List.isPrefixOf_iff_prefix.mpr hc)
  | cons c t ih =>
      intro hn m
      unfold findSub at hn
      split at hn
      · cases hn
      · rename_i hpre
        have ht : findSub needle t = none := by
          cases h : findSub needle t with
          | none => rfl
          | some k => rw [h] at hn; cases hn
        cases m with
        | zero =>
            simp only [occursAt, List.drop_zero]
            intro hc
            exact hpre (List.isPrefixOf_iff_prefix.mpr hc)
        | succ m' =>
            have := ih ht m'
            simpa [occursAt] using this

/-! ## Concrete fixtures used by witnesses and counterexamples -/

/-- A rule oracle that always succeeds with no issues. -/
def ruleAllOk : RuleOracle := ⟨fun _ _ => .ok []⟩

/-- A rule oracle whose HTTP layer always fails. -/
def ruleLTDown : RuleOracle := ⟨fun _ _ => .error (.languageToolError "down")⟩

/-- An LLM oracle that always fails (returns `None`). -/
def noLLM : LLMOracle := ⟨fun _ _ _ _ _ => none, fun _ _ _ => none⟩

/-- A request on clean text. -/
def reqClean : CheckRequest :=
  { text := "goede zin"
    language := "nl"
    mode := .strict
    tone := .neutral
    include_explanations := true }

/-- An issue reported by the re-check oracle `ruleNewOnDiff` below. -/
def issueNew : GrammarIssue :=
  { offset := 0
    length := 2
    message := "capitalize"
    rule_id := "CAP"
    category := .grammar
    severity := .error
    original_text := "ik"
    suggestions := ["Ik"]
    context := none }

/-- A rule oracle that finds nothing in `"goede zin"` and one issue in
every other text. -/
def ruleNewOnDiff : RuleOracle :=
  ⟨fun t _ => if t = "goede zin" then .ok [] else .ok [issueNew]⟩

/-- A model reply that rewrites the clean text into something else. -/
def lrDiff : LLMResponse :=
  { corrected_text := "andere zin", rewrites := [], explanations := [] }

/-- An LLM oracle whose style-review path returns `lrDiff`. -/
def llmDiff : LLMOracle :=
  ⟨fun _ _ _ _ _ => none, fun _ _ _ => some lrDiff⟩

/-! ## Claims -/

/-- Claim C1: whenever the rule-backend re-check succeeds and returns
`new_issues`, `validate_correction` returns a verdict satisfying
`is_valid ↔ (|truly_new| ≤ max_new_issues ∧ |new_issues| ≤
|original_issues|)`, where the truly-new issues are the new issues with
no similar original issue, and `max_new_issues` defaults to `0`. -/
theorem C1_validator_acceptance_rule (rule : RuleOracle)
    (corrected_text : String) (original_issues : List GrammarIssue)
    (language : String) (new_issues : List GrammarIssue)
    (h : rule.check corrected_text language = .ok new_issues) :
    max_new_issues = 0 ∧
    ∃ r, validate_correction rule corrected_text original_issues language true =
        .ok r ∧
      (r.is_valid = true ↔
        ((truly_new_issues new_issues original_issues true).length ≤ max_new_issues ∧
          new_issues.length ≤ original_issues.length)) := by
  refine ⟨rfl, ?_⟩
  simp only [validate_correction, h]
  split_ifs with h1 h2
  · exact ⟨_, rfl, by simp only [Bool.false_eq_true, false_iff]; omega⟩
  · exact ⟨_, rfl, by simp only [Bool.false_eq_true, false_iff]; omega⟩
  · exact ⟨_, rfl, by simp only [true_iff]; omega⟩

/-- Witness for C1 at a concrete re-check outcome. -/
theorem C1_validator_acceptance_rule_witness :
    ruleAllOk.check "goede zin" "nl" = .ok [] ∧
    (max_new_issues = 0 ∧
      ∃ r, validate_correction ruleAllOk "goede zin" [] "nl" true = .ok r ∧
        (r.is_valid = true ↔
          ((truly_new_issues [] [] true).length ≤ max_new_issues ∧
            List.length ([] : List GrammarIssue) ≤
              List.length ([] : List GrammarIssue)))) :=
  ⟨rfl, C1_validator_acceptance_rule ruleAllOk "goede zin" [] "nl" [] rfl⟩

/-- Claim C3: the validator's per-pair similarity test holds iff (equal
rule ids and equal lowercased spans) or equal verbatim spans; the
listwise test used for the truly-new set is its disjunction over the
original issues; offsets are never compared (the test is invariant
under arbitrary changes of both offsets). -/
theorem C3_similarity_relation (a b : GrammarIssue) :
    (pair_similar a b = true ↔
      ((a.rule_id = b.rule_id ∧
          pyLower a.original_text = pyLower b.original_text) ∨
        a.original_text = b.original_text)) ∧
    (∀ l : List GrammarIssue,
      is_similar_issue a l = true ↔ ∃ c ∈ l, pair_similar a c = true) ∧
    ∀ o o' : Nat,
      pair_similar { a with offset := o } { b with offset := o' } =
        pair_similar a b := by
  refine ⟨?_, ?_, ?_⟩
  · simp [pair_similar]
  · intro l
    simp [is_similar_issue, List.any_eq_true]
  · intro o o'
    rfl

/-- Witness for C3 at concrete issues. -/
theorem C3_similarity_relation_witness :
    (pair_similar issueNew issueNew = true ↔
      ((issueNew.rule_id = issueNew.rule_id ∧
          pyLower issueNew.original_text = pyLower issueNew.original_text) ∨
        issueNew.original_text = issueNew.original_text)) ∧
    (∀ l : List GrammarIssue,
      is_similar_issue issueNew l = true ↔
        ∃ c ∈ l, pair_similar issueNew c = true) ∧
    ∀ o o' : Nat,
      pair_similar { issueNew with offset := o } { issueNew with offset := o' } =
        pair_similar issueNew issueNew :=
  C3_similarity_relation issueNew issueNew

/-- Claim C6: when the initial rule check raises the tagged
`LanguageToolError`, `process` returns (without raising) a response with
the original text, no issues, `fallback_used = true` and
`validation_passed = false`. -/
theorem C6_initial_rule_failure_degraded (rule : RuleOracle) (llm : LLMOracle)
    (req : CheckRequest) (m : String)
    (h : rule.check req.text req.language = .error (.languageToolError m)) :
    ∃ resp, process rule llm req = .ok resp ∧
      resp.original_text = req.text ∧ resp.corrected_text = req.text ∧
      resp.issues = [] ∧ resp.fallback_used = true ∧
      resp.validation_passed = false := by
  refine ⟨ltErrorResponse req.text req.language, ?_, rfl, rfl, rfl, rfl, rfl⟩
  simp only [process, h]

/-- Witness for C6 at a concrete failing oracle. -/
theorem C6_initial_rule_failure_degraded_witness :
    ruleLTDown.check reqClean.text reqClean.language =
      .error (.languageToolError "down") ∧
    ∃ resp, process ruleLTDown noLLM reqClean = .ok resp ∧
      resp.original_text = reqClean.text ∧
      resp.corrected_text = reqClean.text ∧
      resp.issues = [] ∧ resp.fallback_used = true ∧
      resp.validation_passed = false :=
  ⟨rfl, C6_initial_rule_failure_degraded ruleLTDown noLLM reqClean "down" rfl⟩

/-- Claim C9: when the initial rule check finds no issues, the model's
reply differs from the original, and the re-validation (against an empty
original-issue set) rejects it, `process` keeps the original text yet
reports `validation_passed = true` and `fallback_used = false`. -/
theorem C9_rejected_llm_reported_valid (rule : RuleOracle) (llm : LLMOracle)
    (req : CheckRequest) (lr : LLMResponse) (v : ValidationResult)
    (h1 : rule.check req.text req.language = .ok [])
    (h2 : llm.generate_rewrites_only req.text req.language req.tone = some lr)
    (h3 : lr.corrected_text ≠ req.text)
    (h4 : validate_correction rule lr.corrected_text [] req.language true = .ok v)
    (h5 : v.is_valid = false) :
    ∃ resp, process rule llm req = .ok resp ∧
      resp.corrected_text = req.text ∧
      resp.validation_passed = true ∧ resp.fallback_used = false := by
  have hne : (lr.corrected_text != req.text) = true := bne_iff_ne.mpr h3
  have hstep : process rule llm req =
      .ok (noIssuesLLMResponse req.text req.language req.text true lr
        (req.mode == CheckMode.style) req.include_explanations) := by
    simp only [process, h1, noIssuesBranch, h2, hne, if_true, h4, h5,
      Bool.false_eq_true, if_false]
  exact ⟨_, hstep, rfl, rfl, rfl⟩

/-- Witness for C9 at concrete oracles. -/
theorem C9_rejected_llm_reported_valid_witness :
    ruleNewOnDiff.check reqClean.text reqClean.language = .ok [] ∧
    llmDiff.generate_rewrites_only reqClean.text reqClean.language reqClean.tone =
      some lrDiff ∧
    lrDiff.corrected_text ≠ reqClean.text ∧
    validate_correction ruleNewOnDiff lrDiff.corrected_text [] reqClean.language
        true =
      .ok { is_valid := false
            new_issues := [issueNew]
            message := "LLM introduced 1 new issues" } ∧
    ∃ resp, process ruleNewOnDiff llmDiff reqClean = .ok resp ∧
      resp.corrected_text = reqClean.text ∧
      resp.validation_passed = true ∧ resp.fallback_used = false :=
  ⟨rfl, rfl, by decide, rfl,
    C9_rejected_llm_reported_valid ruleNewOnDiff llmDiff reqClean lrDiff
      { is_valid := false
        new_issues := [issueNew]
        message := "LLM introduced 1 new issues" }
      rfl rfl (by decide) rfl rfl⟩

/-! ## Further fixtures -/

/-- A one-character issue at offset 0 with suggestion `"X"`. -/
def issueDeHet : GrammarIssue :=
  { offset := 0
    length := 1
    message := "art"
    rule_id := "DE_HET"
    category := .grammar
    severity := .error
    original_text := "a"
    suggestions := ["X"]
    context := none }

/-- A two-character issue at offset 0 with suggestion `"Y"`. -/
def issueLen2 : GrammarIssue :=
  { offset := 0
    length := 2
    message := "pair"
    rule_id := "PAIR"
    category := .grammar
    severity := .error
    original_text := "ab"
    suggestions := ["Y"]
    context := none }

/-- A rule oracle that always reports exactly `issueDeHet`. -/
def ruleOneIssue : RuleOracle := ⟨fun _ _ => .ok [issueDeHet]⟩

/-- A rule oracle that reports `issueDeHet` on `"ab"` and nothing
elsewhere (so any changed candidate passes re-validation). -/
def ruleAbOnly : RuleOracle :=
  ⟨fun t _ => if t = "ab" then .ok [issueDeHet] else .ok []⟩

/-- A strict-mode request on `"ab"`. -/
def reqAb : CheckRequest :=
  { text := "ab"
    language := "nl"
    mode := .strict
    tone := .neutral
    include_explanations := true }

/-- A rewrite the model volunteers although none was requested. -/
def rwVolunteered : RewriteSuggestion :=
  { text := "Zeer goed", tone := "formal", score := 8, changes_summary := none }

/-- An LLM oracle whose correction path replies `"Xb"` plus one
volunteered rewrite. -/
def llmWithRewrites : LLMOracle :=
  ⟨fun _ _ _ _ _ => some ⟨"Xb", [rwVolunteered], []⟩, fun _ _ _ => none⟩

/-- The response `process` produces for `reqAb` with `ruleOneIssue` and
a failing LLM (rule-based fallback path). -/
def respFallbackAb : CheckResponse :=
  { original_text := "ab"
    corrected_text := "Xb"
    issues := [issueDeHet]
    rewrites := []
    explanations := [⟨"a", "a", "X", "art"⟩]
    validation_passed := false
    fallback_used := true
    language := "nl"
    issue_count := 1 }

/-- The response `process` produces for `reqAb` with `ruleAbOnly` and
`llmWithRewrites` (accepted model output in strict mode). -/
def respStrictLeak : CheckResponse :=
  { original_text := "ab"
    corrected_text := "Xb"
    issues := [issueDeHet]
    rewrites := [rwVolunteered]
    explanations := []
    validation_passed := true
    fallback_used := false
    language := "nl"
    issue_count := 1 }

/-- A provider match with `length = 0`, which pydantic's `ge=1`
constraint on `GrammarIssue.length` rejects. -/
def zeroLenMatch : LTMatch :=
  { offset := 0
    length := 0
    message := "msg"
    replacements := []
    rule_id := "R"
    category_id := "GRAMMAR"
    type_name := "grammar"
    context_text := "" }

/-- A rule client whose HTTP layer succeeds but whose match document
contains `zeroLenMatch`. -/
def rulePydanticBoom : RuleOracle := ruleFromHttp fun _ _ => .ok [zeroLenMatch]

/-- A raw rewrite entry with numeric score `11`. -/
def rawScore11 : RawRewrite :=
  { text := some "t", tone := some "neutral", score := .num 11, changes_summary := none }

/-- An explanation fixing `"de"` to `"het"`. -/
def expFix : Explanation :=
  { span := "de", original := "de", corrected := "het", reason := "article" }

/-! ## Helper lemmas about the pipeline branches -/

theorem noIssuesBranch_fallback_used (rule : RuleOracle) (llm : LLMOracle)
    (text language : String) (tone : Tone) (ir ie : Bool) :
    (noIssuesBranch rule llm text language tone ir ie).fallback_used = false := by
  unfold noIssuesBranch
  split
  · rfl
  · split
    · split
      · rfl
      · rfl
    · rfl

theorem validate_and_choose_fallback_text (rule : RuleOracle)
    (llm_text fallback_text : String) (original_issues : List GrammarIssue)
    (language : String) (t : String) (v : ValidationResult)
    (h : validate_and_choose rule llm_text fallback_text original_issues language =
      .ok (t, true, v)) :
    t = fallback_text := by
  unfold validate_and_choose at h
  cases hvc : validate_correction rule llm_text original_issues language true with
  | error e =>
      rw [hvc] at h
      cases h
  | ok validation =>
      simp only [hvc] at h
      by_cases hv : validation.is_valid = true
      · rw [if_pos hv] at h
        simp only [Except.ok.injEq, Prod.mk.injEq] at h
        exact absurd h.2.1.symm (by simp)
      · rw [if_neg hv] at h
        simp only [Except.ok.injEq, Prod.mk.injEq] at h
        exact h.1.symm

theorem mainBranch_fallback_shape (rule : RuleOracle) (llm : LLMOracle)
    (text language : String) (tone : Tone) (issues : List GrammarIssue)
    (ir ie : Bool) (resp : CheckResponse)
    (h : mainBranch rule llm text language tone issues ir ie = .ok resp)
    (hf : resp.fallback_used = true) :
    resp.corrected_text = apply_rule_based_fixes text issues ∧
    resp.original_text = text ∧ resp.issues = issues := by
  unfold mainBranch at h
  cases hgen : llm.generate_correction text issues language tone ir with
  | none =>
      simp only [hgen, Except.ok.injEq] at h
      subst h
      exact ⟨rfl, rfl, rfl⟩
  | some lr =>
      simp only [hgen] at h
      cases hvc : validate_and_choose rule lr.corrected_text
          (apply_rule_based_fixes text issues) issues language with
      | error e =>
          rw [hvc] at h
          cases e with
          | languageToolError m => cases h
          | llmError m =>
              simp only [Except.ok.injEq] at h
              subst h
              exact ⟨rfl, rfl, rfl⟩
          | otherError m => cases h
      | ok triple =>
          obtain ⟨ft, uf, v⟩ := triple
          simp only [hvc] at h
          cases uf with
          | true =>
              rw [if_pos rfl] at h
              simp only [Except.ok.injEq] at h
              subst h
              refine ⟨?_, rfl, rfl⟩
              exact validate_and_choose_fallback_text rule lr.corrected_text
                (apply_rule_based_fixes text issues) issues language ft v hvc
          | false =>
              rw [if_neg (by simp)] at h
              simp only [Except.ok.injEq] at h
              subst h
              simp at hf

theorem mainBranch_total (rule : RuleOracle) (llm : LLMOracle)
    (text language : String) (tone : Tone) (issues : List GrammarIssue)
    (ir ie : Bool)
    (h : ∀ t l, (∃ is, rule.check t l = .ok is) ∨
      ∃ m, rule.check t l = .error (.languageToolError m)) :
    ∃ resp, mainBranch rule llm text language tone issues ir ie = .ok resp := by
  unfold mainBranch
  cases hgen : llm.generate_correction text issues language tone ir with
  | none => exact ⟨_, rfl⟩
  | some lr =>
      have hv : ∃ v, validate_correction rule lr.corrected_text issues language true =
          .ok v := by
        rcases h lr.corrected_text language with ⟨is, hok⟩ | ⟨m, herr⟩
        · simp only [validate_correction, hok]
          split_ifs <;> exact ⟨_, rfl⟩
        · simp only [validate_correction, herr]
          exact ⟨_, rfl⟩
      obtain ⟨v, hv⟩ := hv
      simp only [validate_and_choose, hv]
      cases hvalid : v.is_valid with
      | true => exact ⟨_, rfl⟩
      | false => exact ⟨_, rfl⟩

/-! ## Claims C2, C4, C5, C7, C8, C10 -/

/-- Claim C2: every response with `fallback_used = true` has
`corrected_text` equal to the deterministic rule-based replacement of
its issues' spans in its original text (descending offset order, first
suggestion, issues without suggestions left in place); in the
initial-check-failure branch the issues list is empty so the corrected
text is the original.  The model's text is never used. -/
theorem C2_fallback_corrected_text (rule : RuleOracle) (llm : LLMOracle)
    (req : CheckRequest) (resp : CheckResponse)
    (h : process rule llm req = .ok resp)
    (hf : resp.fallback_used = true) :
    resp.corrected_text = apply_rule_based_fixes resp.original_text resp.issues := by
  unfold process at h
  cases hrc : rule.check req.text req.language with
  | error e =>
      rw [hrc] at h
      cases e with
      | languageToolError m =>
          simp only [Except.ok.injEq] at h
          subst h
          rfl
      | llmError m => cases h
      | otherError m => cases h
  | ok issues =>
      rw [hrc] at h
      cases issues with
      | nil =>
          simp only [Except.ok.injEq] at h
          subst h
          rw [noIssuesBranch_fallback_used] at hf
          cases hf
      | cons i rest =>
          obtain ⟨hc, ho, hi⟩ :=
            mainBranch_fallback_shape rule llm req.text req.language req.tone
              (i :: rest) (req.mode == CheckMode.style) req.include_explanations
              resp h hf
          rw [hc, ho, hi]

/-- Witness for C2 on the fallback path of a concrete run. -/
theorem C2_fallback_corrected_text_witness :
    process ruleOneIssue noLLM reqAb = .ok respFallbackAb ∧
    respFallbackAb.fallback_used = true ∧
    respFallbackAb.corrected_text =
      apply_rule_based_fixes respFallbackAb.original_text respFallbackAb.issues :=
  ⟨rfl, rfl, C2_fallback_corrected_text ruleOneIssue noLLM reqAb respFallbackAb rfl rfl⟩

/-- The rule-backend oracle only ever fails with the tagged
`LanguageToolError` (i.e. its parsing step never raises). -/
def ltTagged (rule : RuleOracle) : Prop :=
  ∀ t l, (∃ is, rule.check t l = .ok is) ∨
    ∃ m, rule.check t l = .error (.languageToolError m)

/-- Claim C4, amended: `process` never raises provided every rule-backend
call either succeeds or fails with the tagged `LanguageToolError`; an
untagged exception from the rule backend (e.g. a pydantic
`ValidationError` from `_parse_matches`) propagates out of `process`
from the initial check or from the main-branch re-check. -/
theorem C4_amended_no_throw (rule : RuleOracle) (llm : LLMOracle)
    (req : CheckRequest) (h : ltTagged rule) :
    ∃ resp, process rule llm req = .ok resp := by
  unfold process
  rcases h req.text req.language with ⟨is, hok⟩ | ⟨m, herr⟩
  · rw [hok]
    cases is with
    | nil => exact ⟨_, rfl⟩
    | cons i rest =>
        exact mainBranch_total rule llm req.text req.language req.tone (i :: rest)
          (req.mode == CheckMode.style) req.include_explanations h
  · rw [herr]
    exact ⟨_, rfl⟩

/-- Witness for the amended C4 with an always-succeeding rule backend. -/
theorem C4_amended_no_throw_witness :
    ltTagged ruleAllOk ∧ ∃ resp, process ruleAllOk noLLM reqClean = .ok resp :=
  ⟨fun _ _ => .inl ⟨[], rfl⟩,
    C4_amended_no_throw ruleAllOk noLLM reqClean fun _ _ => .inl ⟨[], rfl⟩⟩

/-- Counterexample to C4 as stated: a rule backend whose HTTP layer
succeeds but whose match document contains a zero-length match makes
the initial `check_text` raise an untagged pydantic error, and `process`
propagates it instead of returning a `CheckResponse`. -/
theorem C4_counterexample :
    process rulePydanticBoom noLLM reqClean =
      .error (.otherError "GrammarIssue validation error") := rfl

/-- The code's behaviour behind C5's failing input: in strict mode, when
the rule check finds issues and the model's accepted reply volunteers
rewrites, `process` passes those rewrites through to the response. -/
theorem C5_strict_mode_rewrites_leak :
    reqAb.mode = CheckMode.strict ∧
    process ruleAbOnly llmWithRewrites reqAb = .ok respStrictLeak ∧
    respStrictLeak.rewrites ≠ [] :=
  ⟨rfl, rfl, by decide⟩

/-- Counterexample to C7 as stated: two issues share offset 0 with
lengths 1 and 2, input order smaller-first; the fallback applies the
input-first (smaller) issue first, not the larger one, and the results
differ. -/
theorem C7_counterexample :
    issueDeHet.offset = issueLen2.offset ∧
    issueDeHet.length < issueLen2.length ∧
    apply_rule_based_fixes "abcd" [issueDeHet, issueLen2] =
      apply_one_fix (apply_one_fix "abcd" issueDeHet) issueLen2 ∧
    apply_rule_based_fixes "abcd" [issueDeHet, issueLen2] ≠
      apply_one_fix (apply_one_fix "abcd" issueLen2) issueDeHet :=
  ⟨rfl, by decide, rfl, by decide⟩

/-- Claim C7, amended: the fallback's sort key is the offset alone and
the sort is stable, so two issues sharing an offset are applied in
input-list order, regardless of their lengths. -/
theorem C7_amended_equal_offsets_input_order (text : String)
    (a b : GrammarIssue) (h : a.offset = b.offset) :
    apply_rule_based_fixes text [a, b] =
      apply_one_fix (apply_one_fix text a) b := by
  unfold apply_rule_based_fixes
  have hs : List.insertionSort offsetGE [a, b] = [a, b] := by
    simp [List.insertionSort, List.orderedInsert, offsetGE, h]
  rw [hs]
  rfl

/-- Witness for the amended C7 at concrete equal-offset issues. -/
theorem C7_amended_equal_offsets_input_order_witness :
    issueDeHet.offset = issueLen2.offset ∧
    apply_rule_based_fixes "abcd" [issueDeHet, issueLen2] =
      apply_one_fix (apply_one_fix "abcd" issueDeHet) issueLen2 :=
  ⟨rfl, C7_amended_equal_offsets_input_order "abcd" issueDeHet issueLen2 rfl⟩

/-- Counterexample to C8 as stated: an entry with numeric score `11`
(outside `[0, 10]`) is dropped entirely, not kept with a clamped
score. -/
theorem C8_counterexample :
    rawScore11.score = ScoreVal.num 11 ∧
    ¬((0 : ℚ) ≤ 11 ∧ (11 : ℚ) ≤ 10) ∧
    parse_rewrites [rawScore11] = [] :=
  ⟨rfl, by norm_num, rfl⟩

/-- Claim C8, amended: a rewrite entry whose score is a number outside
`[0, 10]` is dropped (the pydantic range check fails and the
`except: continue` discards the entry); in-range scores are kept
unchanged, with no clamping anywhere. -/
theorem C8_amended_out_of_range_dropped (entry : RawRewrite) (q : ℚ)
    (h : entry.score = ScoreVal.num q) :
    (¬(0 ≤ q ∧ q ≤ 10) → parse_rewrite entry = none) ∧
    ((0 ≤ q ∧ q ≤ 10) → ∃ r, parse_rewrite entry = some r ∧ r.score = q) := by
  constructor
  · intro hq
    simp only [parse_rewrite, h, if_neg hq]
  · intro hq
    refine ⟨{ text := entry.text.getD ""
              tone := entry.tone.getD "neutral"
              score := q
              changes_summary := entry.changes_summary }, ?_, rfl⟩
    simp only [parse_rewrite, h, if_pos hq]

/-- Witness for the amended C8 at score `11`. -/
theorem C8_amended_out_of_range_dropped_witness :
    rawScore11.score = ScoreVal.num 11 ∧ parse_rewrite rawScore11 = none :=
  ⟨rfl, (C8_amended_out_of_range_dropped rawScore11 11 rfl).1 (by norm_num)⟩

/-- Claim C10: the explanation-to-issue conversion produces one issue
exactly per explanation with non-empty, differing `original` and
`corrected`; each issue has rule id `LLM_DETECTED`, length the length
of the original string, the corrected string as sole suggestion, and as
offset the index of the first occurrence of the original string in the
text, or `0` when it does not occur. -/
theorem C10_explanations_to_issues_spec (text : String)
    (exps : List Explanation) :
    explanations_to_issues text exps =
      (exps.filter fun e =>
        decide (e.original ≠ "" ∧ e.corrected ≠ "" ∧ e.original ≠ e.corrected)).map
        (issueOfExplanation text) ∧
    ∀ e : Explanation,
      (issueOfExplanation text e).rule_id = "LLM_DETECTED" ∧
      (issueOfExplanation text e).length = e.original.length ∧
      (issueOfExplanation text e).suggestions = [e.corrected] ∧
      ((occursAt e.original.toList text.toList (issueOfExplanation text e).offset ∧
          ∀ m, m < (issueOfExplanation text e).offset →
            ¬ occursAt e.original.toList text.toList m) ∨
        ((∀ m, ¬ occursAt e.original.toList text.toList m) ∧
          (issueOfExplanation text e).offset = 0)) := by
  constructor
  · induction exps with
    | nil => rfl
    | cons e rest ih =>
        by_cases hp : e.original ≠ "" ∧ e.corrected ≠ "" ∧ e.original ≠ e.corrected
        · simp [explanations_to_issues, hp, List.filter_cons, ih]
        · simp [explanations_to_issues, hp, List.filter_cons, ih]
  · intro e
    refine ⟨rfl, rfl, rfl, ?_⟩
    have hoff : (issueOfExplanation text e).offset = pyFindOffset text e.original :=
      rfl
    cases hf : findSub e.original.toList text.toList with
    | some n =>
        have hn : pyFindOffset text e.original = n := by
          unfold pyFindOffset
          rw [hf]
        rw [hoff, hn]
        exact .inl (findSub_eq_some _ _ n hf)
    | none =>
        have hn : pyFindOffset text e.original = 0 := by
          unfold pyFindOffset
          rw [hf]
        rw [hoff, hn]
        exact .inr ⟨findSub_eq_none _ _ hf, rfl⟩

/-- Witness for C10 at a concrete text and explanation list. -/
theorem C10_explanations_to_issues_spec_witness :
    explanations_to_issues "ik heb de boek" [expFix] =
      [issueOfExplanation "ik heb de boek" expFix] ∧
    (issueOfExplanation "ik heb de boek" expFix).offset = 7 := by
  have h := C10_explanations_to_issues_spec "ik heb de boek" [expFix]
  refine ⟨?_, rfl⟩
  rw [h.1]
  rfl

end Illiterate
